import Mathlib

/-!
Verification development for the DriveAware repository (driver drowsiness
detection prototype).

The Python sources under `src/` are shallowly embedded below:

* a video frame (a `numpy` BGR pixel buffer) becomes `Frame`, a list of rows,
  each row a list of pixels, each pixel a list of channel values;
* a Haar-cascade bounding box `(x, y, w, h)` becomes `Rect` with `Nat` fields
  (the cascade returns non-negative integer coordinates);
* the external OpenCV primitives (`cvtColor`, `CascadeClassifier
  .detectMultiScale`, `cv2.rectangle`, `cv2.putText`) are opaque library
  calls, embedded as the fields of a `VisionEnv` parameter, so every theorem
  quantifies over what the vision library may return or draw;
* methods become pure Lean functions; the mutable attributes of
  `CameraCapture`, `DrownessDetectionCamera` and `DrownessDetectionSystem`
  become structures threaded through explicit state passing;
* the camera hardware read `cv2.VideoCapture.read` becomes an
  `Option Frame` input (`none` = failed read);
* Python exceptions become `Except`, and a Python `try/except/log` block
  becomes `tryCatchLog`;
* buffer identity (which `numpy` array a variable aliases) is modelled where
  a claim needs it by `BufStore`, a store of buffers addressed by index.
-/

/-- A video frame: rows × columns × channels of pixel values.
Models the `numpy.ndarray` BGR frames produced by OpenCV. -/
structure Frame where
  data : List (List (List Nat))
deriving DecidableEq

/-- Number of rows, i.e. the first component of `frame.shape`. -/
def Frame.height (f : Frame) : Nat := f.data.length

/-- Number of columns, i.e. the second component of `frame.shape`.
For a rectangular buffer every row has this length. -/
def Frame.width (f : Frame) : Nat := (f.data.headD []).length

/-- The frame is a rectangular buffer: every row has length `f.width`
(always true of a `numpy` array; stated explicitly for the list model). -/
def Frame.Rectangular (f : Frame) : Prop := ∀ row ∈ f.data, row.length = f.width

instance (f : Frame) : Decidable f.Rectangular := by
  unfold Frame.Rectangular; infer_instance

/-- Pixel lookup: `frame[i][j]`, `none` when out of range. -/
def Frame.getPix (f : Frame) (i j : Nat) : Option (List Nat) :=
  (f.data[i]?).bind fun row => row[j]?

/-- A detection rectangle `(x, y, w, h)` as returned by
`CascadeClassifier.detectMultiScale` (non-negative integers). -/
structure Rect where
  x : Nat
  y : Nat
  w : Nat
  h : Nat
deriving DecidableEq

/-- Embedding of `f[2] * f[3]`: the area key used to sort detected faces. -/
def Rect.area (r : Rect) : Nat := r.w * r.h

/-- The landmark dictionary built by `FaceDetector.get_face_landmarks`:
`{'eyes': eyes, 'eye_count': len(eyes), 'face_region': face_region}`.
The dictionary stores a reference to the `face_region` array; since the code
draws the eye boxes onto that same array after building the dictionary, the
`face_region` field here holds the region's final (drawn-on) content. -/
structure LandmarksData where
  eyes : List Rect
  eye_count : Nat
  face_region : Frame
deriving DecidableEq

/-- The external vision-library primitives used by `FaceDetector`.
These are opaque third-party calls (OpenCV); the embedding abstracts them as
arbitrary functions so theorems hold for every possible library behaviour. -/
structure VisionEnv where
  /-- Embedding of `cv2.cvtColor(frame, cv2.COLOR_BGR2GRAY)` -/
  grayOf : Frame → Frame
  /-- Embedding of `self.face_cascade.detectMultiScale(gray, ...)` -/
  faceCascade : Frame → List Rect
  /-- Embedding of `self.eye_cascade.detectMultiScale(face_region)` -/
  eyeCascade : Frame → List Rect
  /-- Embedding of `cv2.rectangle(frame_bgr, (x, y), (x+w, y+h), (0,255,0), 2)` -/
  drawFaceRect : Frame → Rect → Frame
  /-- Embedding of `cv2.putText(frame_bgr, "Face", (x, y-10), ...)` -/
  drawFaceLabel : Frame → Rect → Frame
  /-- Embedding of `cv2.rectangle(face_region, (x, y), (x+w, y+h), (255,0,0), 2)` -/
  drawEyeRect : Frame → Rect → Frame

/-- Stable descending insertion by area.  `r` goes before the first element
whose area it strictly exceeds or equals from the left-insertion side, which
reproduces the order of Python's stable `sorted(..., key=area, reverse=True)`. -/
def insertByAreaDesc (r : Rect) : List Rect → List Rect
  | [] => [r]
  | s :: rest => if s.area ≤ r.area then r :: s :: rest else s :: insertByAreaDesc r rest

/-- Embedding of `sorted(faces, key=lambda f: f[2] * f[3], reverse=True)`: a stable sort by
descending area (insertion sort, which is stable, hence extensionally equal to
Python's stable sort for this key). -/
def sortByAreaDesc : List Rect → List Rect
  | [] => []
  | r :: rest => insertByAreaDesc r (sortByAreaDesc rest)

/-- Embedding of `FaceDetector.detect_face` (src/camera_module.py lines 43-83).
`frame_bgr = frame.copy()` starts from the input's pixel content; the copy's
separate buffer identity is modelled in `FaceDetector.detect_face_buffers`. -/
def FaceDetector.detect_face (env : VisionEnv) (frame : Frame) :
    Frame × Option (List Rect) × Bool :=
  let gray := env.grayOf frame
  let faces := env.faceCascade gray
  let frame_bgr := frame
  if faces.length > 0 then
    let faces' := (sortByAreaDesc faces).take 1
    let annotated :=
      faces'.foldl (fun fb r => env.drawFaceLabel (env.drawFaceRect fb r) r) frame_bgr
    (annotated, some faces', true)
  else
    (frame_bgr, none, false)

/-- Embedding of `FaceDetector.get_face_landmarks` (src/camera_module.py lines 85-125).
The source also computes `gray = cv2.cvtColor(frame, ...)` and never uses it;
the returned first component is `frame.copy()`, untouched by this method.
When at least two eyes are found the landmark dictionary is built and then
the eye boxes are drawn onto the referenced `face_region` array; the
dictionary's `face_region` therefore holds the drawn-on region. -/
def FaceDetector.get_face_landmarks (env : VisionEnv) (frame : Frame)
    (face_region : Option Frame := none) :
    Frame × Option LandmarksData × Bool :=
  let frame_bgr := frame
  match face_region with
  | none => (frame_bgr, none, false)
  | some fr =>
    let eyes := env.eyeCascade fr
    if 2 ≤ eyes.length then
      let drawn := eyes.foldl env.drawEyeRect fr
      (frame_bgr, some ⟨eyes, eyes.length, drawn⟩, true)
    else
      (frame_bgr, none, false)

/-- Embedding of `frame[y_min:y_max, x_min:x_max]`: numpy slicing on the first two axes.
With `0 ≤ lo` and `hi ≤ length` this is the rows `lo ≤ i < hi` (empty when
`hi ≤ lo`), and never an out-of-range access. -/
def Frame.slice (f : Frame) (y_min y_max x_min x_max : Int) : Frame :=
  ⟨((f.data.drop y_min.toNat).take (y_max - y_min).toNat).map
     (fun row => (row.drop x_min.toNat).take (x_max - x_min).toNat)⟩

/-- Embedding of `FaceDetector.extract_face_roi` (src/camera_module.py lines 127-155).
The `len(detection) < 4` guard is subsumed by the `Option Rect` type (a
`Rect` always has its four fields); `margin = int(0.1 * w)` is the truncated
tenth of the face width, modelled as integer division by 10.  The source also
unpacks a channel count `c` from `frame.shape`, which it never uses. -/
def FaceDetector.extract_face_roi (frame : Frame) (detection : Option Rect) :
    Option Frame :=
  match detection with
  | none => none
  | some r =>
    let h_frame : Int := frame.height
    let w_frame : Int := frame.width
    let margin : Int := (r.w : Int) / 10
    let x_min : Int := max 0 ((r.x : Int) - margin)
    let y_min : Int := max 0 ((r.y : Int) - margin)
    let x_max : Int := min w_frame ((r.x : Int) + (r.w : Int) + margin)
    let y_max : Int := min h_frame ((r.y : Int) + (r.h : Int) + margin)
    some (frame.slice y_min y_max x_min x_max)

/-- A store of pixel buffers addressed by index: the heap of `numpy` arrays.
Used to model buffer identity (which array a variable aliases) where a claim
is about mutation or copying. -/
structure BufStore where
  bufs : List Frame
deriving DecidableEq

/-- Read the buffer at index `i`. -/
def BufStore.read (s : BufStore) (i : Nat) : Option Frame := s.bufs[i]?

/-- Allocate a fresh buffer holding `f` (e.g. a `.copy()`), returning its
index: fresh indices are appended, so existing buffers keep their index. -/
def BufStore.alloc (s : BufStore) (f : Frame) : Nat × BufStore :=
  (s.bufs.length, ⟨s.bufs ++ [f]⟩)

/-- Overwrite the buffer at index `i` in place (a drawing call mutates the
array it is given). -/
def BufStore.write (s : BufStore) (i : Nat) (f : Frame) : BufStore :=
  ⟨s.bufs.set i f⟩

/-- Embedding of `FaceDetector.detect_face` again (src/camera_module.py lines 43-83), at
buffer granularity: the input is the index of the frame's buffer,
`frame_bgr = frame.copy()` allocates a fresh buffer with the same content,
and each `cv2.rectangle`/`cv2.putText` call mutates that fresh buffer in
place.  Same computation as `FaceDetector.detect_face`, with the aliasing
made explicit. -/
def FaceDetector.detect_face_buffers (env : VisionEnv) (s : BufStore)
    (frameId : Nat) : BufStore × Nat × Option (List Rect) × Bool :=
  let frame := (s.read frameId).getD ⟨[]⟩
  let gray := env.grayOf frame
  let faces := env.faceCascade gray
  let (bgrId, s₁) := s.alloc frame
  if faces.length > 0 then
    let faces' := (sortByAreaDesc faces).take 1
    let s₂ := faces'.foldl
      (fun st r =>
        st.write bgrId (env.drawFaceLabel (env.drawFaceRect ((st.read bgrId).getD frame) r) r))
      s₁
    (s₂, bgrId, some faces', true)
  else
    (s₁, bgrId, none, false)

/-- The `queue.Queue` objects of the Python standard library, as far as this
repository touches them: a capacity and a list of queued items.  The
constructor call `Queue(maxsize=2)` yields `⟨2, []⟩`. -/
structure PyQueue where
  maxsize : Nat
  items : List Frame
deriving DecidableEq

/-- The mutable attributes of `CameraCapture` (src/camera_module.py lines
162-216).  The `cv2.VideoCapture` handle and its property settings are
external hardware state; reads from it enter the model as the
`Option Frame` argument of `get_frame`. -/
structure CameraCapture where
  camera_index : Nat
  frame_width : Nat
  frame_height : Nat
  is_running : Bool
  frame_queue : PyQueue
  current_frame : Option Frame
deriving DecidableEq

/-- Embedding of `CameraCapture.__init__` (lines 168-197): stores the parameters, sets
`is_running = False`, constructs `frame_queue = Queue(maxsize=2)` and sets
`current_frame = None`. -/
def CameraCapture.init (camera_index : Nat := 0) (frame_width : Nat := 640)
    (frame_height : Nat := 480) : CameraCapture :=
  { camera_index := camera_index, frame_width := frame_width,
    frame_height := frame_height, is_running := false,
    frame_queue := ⟨2, []⟩, current_frame := none }

/-- Embedding of `CameraCapture.get_frame` (lines 199-209): `ret, frame = self.cap.read()`
is the hardware read, passed in as `read` (`none` = failed read); on success
`current_frame` is updated; the pair `(ret, frame)` is returned directly. -/
def CameraCapture.get_frame (cam : CameraCapture) (read : Option Frame) :
    (Bool × Option Frame) × CameraCapture :=
  match read with
  | some f => ((true, some f), { cam with current_frame := some f })
  | none => ((false, none), cam)

/-- Embedding of `CameraCapture.release` (lines 211-216): sets `is_running = False` and
releases the hardware handle. -/
def CameraCapture.release (cam : CameraCapture) : CameraCapture :=
  { cam with is_running := false }

/-- Fold a sequence of hardware reads through `get_frame`: every state of a
`CameraCapture` reachable after initialization. -/
def CameraCapture.runReads (cam : CameraCapture) : List (Option Frame) → CameraCapture
  | [] => cam
  | r :: rest => CameraCapture.runReads (cam.get_frame r).2 rest

/-- The mutable attributes of `DrownessDetectionCamera`
(src/camera_module.py lines 219-315). -/
structure DrownessDetectionCamera where
  camera : CameraCapture
  face_landmarks_data : Option LandmarksData
  face_detected : Bool
  last_face_region : Option Frame
deriving DecidableEq

/-- Embedding of `DrownessDetectionCamera.__init__` (lines 225-238). -/
def DrownessDetectionCamera.init (camera_index : Nat := 0) : DrownessDetectionCamera :=
  { camera := CameraCapture.init camera_index,
    face_landmarks_data := none, face_detected := false, last_face_region := none }

/-- Embedding of `DrownessDetectionCamera.capture_and_detect` (lines 240-279).
`read` is the hardware read consumed by `self.camera.get_frame()`.
`self.face_detected = landmarks_detected if landmarks_data else face_detected`
tests the truthiness of the landmark dictionary, i.e. whether it is `None`
(the dictionary always has three keys, so a non-`None` value is truthy).
`self.last_face_region` aliases the dictionary's `face_region` array in
Python; the model stores its pre-drawing content, which no claim observes. -/
def DrownessDetectionCamera.capture_and_detect (env : VisionEnv)
    (cam : DrownessDetectionCamera) (read : Option Frame) :
    (Option Frame × Bool × Option LandmarksData) × DrownessDetectionCamera :=
  let rf := cam.camera.get_frame read
  let cam₁ := { cam with camera := rf.2 }
  match rf.1.2 with
  | none => ((none, false, none), cam₁)
  | some frame =>
    let fd := FaceDetector.detect_face env frame
    let frame_with_detection := fd.1
    let detections := fd.2.1
    let face_detected := fd.2.2
    match face_detected, detections with
    | true, some (d :: _) =>
      let face_roi := FaceDetector.extract_face_roi frame (some d)
      let cam₂ := { cam₁ with last_face_region := face_roi }
      let gl := FaceDetector.get_face_landmarks env frame_with_detection face_roi
      let landmarks_data := gl.2.1
      let landmarks_detected := gl.2.2
      let annotated_frame := gl.1
      let cam₃ := { cam₂ with
        face_detected := if landmarks_data.isSome then landmarks_detected else true,
        face_landmarks_data := landmarks_data }
      ((some annotated_frame, cam₃.face_detected, cam₃.face_landmarks_data), cam₃)
    | _, _ =>
      let cam₂ := { cam₁ with face_detected := false, face_landmarks_data := none }
      ((some frame_with_detection, cam₂.face_detected, cam₂.face_landmarks_data), cam₂)

/-- Embedding of `DrownessDetectionCamera.get_face_landmarks` (lines 281-288). -/
def DrownessDetectionCamera.get_face_landmarks (cam : DrownessDetectionCamera) :
    Option LandmarksData := cam.face_landmarks_data

/-- Embedding of `DrownessDetectionCamera.is_face_detected` (lines 290-297). -/
def DrownessDetectionCamera.is_face_detected (cam : DrownessDetectionCamera) : Bool :=
  cam.face_detected

/-- A Python `try: x = body / except: log` block: the result on success,
the fallback (previous value) when the body raises. -/
def tryCatchLog {ε α : Type} (body : Except ε α) (fallback : α) : α :=
  match body with
  | .ok v => v
  | .error _ => fallback

/-- The mutable attributes of `DrownessDetectionSystem` (src/main.py lines
19-181).  The duck-typed collaborator stubs are arbitrary functions that may
raise (`Except`): `eye_detector.analyze_eyes(landmarks)` returns a value
whose truthiness drives the alarm, `alarm_system.trigger_alert()` returns
nothing. -/
structure DrownessDetectionSystem where
  camera_module : DrownessDetectionCamera
  eye_detector : Option (LandmarksData → Except String Bool)
  alarm_system : Option (Unit → Except String Unit)
  is_running : Bool
  frame_count : Nat

/-- Embedding of `DrownessDetectionSystem.process_frame` (src/main.py lines 69-104).
Both collaborator calls sit in `try/except` blocks that log and continue;
without them an `Except.error` would propagate to the caller, so the result
type records that possibility and the theorems show it never happens.
`if self.eye_detector and landmarks:` tests both for `None` (the landmark
dictionary is truthy whenever present); the alarm fires only when a status
was produced and is truthy. -/
def DrownessDetectionSystem.process_frame (sys : DrownessDetectionSystem)
    (frame : Option Frame) : Except String (Bool × Option LandmarksData) :=
  match frame with
  | none => .ok (false, none)
  | some _ =>
    let landmarks := sys.camera_module.get_face_landmarks
    let face_detected := sys.camera_module.is_face_detected
    let drowsiness_status : Option Bool :=
      match sys.eye_detector, landmarks with
      | some ed, some lm => tryCatchLog ((ed lm).map some) none
      | _, _ => none
    let _alarm : Unit :=
      match sys.alarm_system, drowsiness_status with
      | some al, some status => if status then tryCatchLog (al ()) () else ()
      | _, _ => ()
    .ok (face_detected, landmarks)

/-- The `while self.is_running:` loop body of
`DrownessDetectionSystem.start_detection` (src/main.py lines 111-132).
Each iteration consumes one hardware read and one `cv2.waitKey` result; the
loop breaks when `capture_and_detect` yields a `None` frame, or on the `q`
(113) or ESC (27) key; the model returns the state at which the loop stops
(or when the supplied inputs run out). -/
def DrownessDetectionSystem.detectionLoop (env : VisionEnv)
    (sys : DrownessDetectionSystem) :
    List (Option Frame × Nat) → DrownessDetectionSystem
  | [] => sys
  | (read, key) :: rest =>
    if sys.is_running then
      let cd := DrownessDetectionCamera.capture_and_detect env sys.camera_module read
      let sys₁ := { sys with camera_module := cd.2 }
      match cd.1.1 with
      | none => sys₁
      | some f =>
        let sys₂ := { sys₁ with frame_count := sys₁.frame_count + 1 }
        let _ := sys₂.process_frame (some f)
        if key = 113 ∨ key = 27 then sys₂
        else DrownessDetectionSystem.detectionLoop env sys₂ rest
    else sys

/-- Embedding of `DrownessDetectionSystem.start_detection` (src/main.py lines 106-139):
sets `is_running = True` and runs the loop (the `finally: stop_detection()`
cleanup is hardware release and window teardown, outside the model). -/
def DrownessDetectionSystem.start_detection (env : VisionEnv)
    (sys : DrownessDetectionSystem) (inputs : List (Option Frame × Nat)) :
    DrownessDetectionSystem :=
  DrownessDetectionSystem.detectionLoop env { sys with is_running := true } inputs

/-! ### Helper lemmas -/

theorem insertByAreaDesc_ne_nil (r : Rect) (l : List Rect) :
    insertByAreaDesc r l ≠ [] := by
  cases l with
  | nil => simp [insertByAreaDesc]
  | cons s rest =>
    simp only [insertByAreaDesc]
    split <;> simp

theorem sortByAreaDesc_head_max (l : List Rect) (hl : l ≠ []) :
    ∃ r, (sortByAreaDesc l).head? = some r ∧ r ∈ l ∧ ∀ s ∈ l, s.area ≤ r.area := by
  induction l with
  | nil => exact absurd rfl hl
  | cons a rest ih =>
    cases rest with
    | nil =>
      refine ⟨a, by simp [sortByAreaDesc, insertByAreaDesc], by simp, ?_⟩
      intro s hs
      simp only [List.mem_singleton] at hs
      simp [hs]
    | cons b rs =>
      obtain ⟨m, hm_head, hm_mem, hm_max⟩ := ih (by simp)
      obtain ⟨tl, hsort⟩ : ∃ t, sortByAreaDesc (b :: rs) = m :: t := by
        cases hst : sortByAreaDesc (b :: rs) with
        | nil => rw [hst] at hm_head; simp at hm_head
        | cons x xs =>
          rw [hst] at hm_head
          simp only [List.head?_cons, Option.some.injEq] at hm_head
          exact ⟨xs, by rw [hm_head]⟩
      show ∃ r, (insertByAreaDesc a (sortByAreaDesc (b :: rs))).head? = some r ∧ _
      rw [hsort]
      simp only [insertByAreaDesc]
      by_cases hc : m.area ≤ a.area
      · refine ⟨a, by simp [hc], by simp, ?_⟩
        intro s hs
        rcases List.mem_cons.mp hs with h | h
        · simp [h]
        · exact Nat.le_trans (hm_max s h) hc
      · refine ⟨m, by simp [hc], List.mem_cons_of_mem _ hm_mem, ?_⟩
        intro s hs
        rcases List.mem_cons.mp hs with h | h
        · exact h ▸ Nat.le_of_lt (Nat.lt_of_not_le hc)
        · exact hm_max s h

theorem detect_face_of_no_faces (env : VisionEnv) (f : Frame)
    (hc : env.faceCascade (env.grayOf f) = []) :
    FaceDetector.detect_face env f = (f, none, false) := by
  simp only [FaceDetector.detect_face, hc]
  simp

theorem detect_face_of_faces (env : VisionEnv) (f : Frame) (a : Rect)
    (rest : List Rect) (hc : env.faceCascade (env.grayOf f) = a :: rest) :
    ∃ d tl, sortByAreaDesc (a :: rest) = d :: tl ∧
      (FaceDetector.detect_face env f).2.1 = some [d] ∧
      (FaceDetector.detect_face env f).2.2 = true := by
  obtain ⟨d, tl, hsort⟩ :=
    List.exists_cons_of_ne_nil (insertByAreaDesc_ne_nil a (sortByAreaDesc rest))
  refine ⟨d, tl, hsort, ?_, ?_⟩ <;>
  · simp only [FaceDetector.detect_face, hc]
    simp [sortByAreaDesc, hsort]

/-- The per-face computation done by `capture_and_detect` once the largest
face `d` has been selected: annotated frame, stored detection flag and stored
landmark data. -/
def captureFaceStep (env : VisionEnv) (f : Frame) (d : Rect) :
    Frame × Bool × Option LandmarksData :=
  let gl := FaceDetector.get_face_landmarks env (FaceDetector.detect_face env f).1
              (FaceDetector.extract_face_roi f (some d))
  (gl.1, if gl.2.1.isSome then gl.2.2 else true, gl.2.1)

theorem capture_some_of_no_faces (env : VisionEnv) (cam : DrownessDetectionCamera)
    (f : Frame) (hc : env.faceCascade (env.grayOf f) = []) :
    DrownessDetectionCamera.capture_and_detect env cam (some f)
      = ((some f, false, none),
         { cam with camera := { cam.camera with current_frame := some f },
                    face_detected := false, face_landmarks_data := none }) := by
  have hd := detect_face_of_no_faces env f hc
  simp only [DrownessDetectionCamera.capture_and_detect, CameraCapture.get_frame, hd]

theorem capture_some_of_faces (env : VisionEnv) (cam : DrownessDetectionCamera)
    (f : Frame) (a : Rect) (rest : List Rect)
    (hc : env.faceCascade (env.grayOf f) = a :: rest) :
    ∃ d tl, sortByAreaDesc (a :: rest) = d :: tl ∧
      DrownessDetectionCamera.capture_and_detect env cam (some f)
        = ((some (captureFaceStep env f d).1, (captureFaceStep env f d).2.1,
            (captureFaceStep env f d).2.2),
           { cam with
             camera := { cam.camera with current_frame := some f },
             last_face_region := FaceDetector.extract_face_roi f (some d),
             face_detected := (captureFaceStep env f d).2.1,
             face_landmarks_data := (captureFaceStep env f d).2.2 }) := by
  obtain ⟨d, tl, hsort, hdet, hflag⟩ := detect_face_of_faces env f a rest hc
  refine ⟨d, tl, hsort, ?_⟩
  simp only [DrownessDetectionCamera.capture_and_detect, CameraCapture.get_frame,
    hdet, hflag, captureFaceStep]

theorem runReads_preserves_frame_queue (reads : List (Option Frame)) :
    ∀ cam : CameraCapture, (cam.runReads reads).frame_queue = cam.frame_queue := by
  induction reads with
  | nil => intro cam; rfl
  | cons r rest ih =>
    intro cam
    show (CameraCapture.runReads (cam.get_frame r).2 rest).frame_queue = _
    rw [ih]
    cases r <;> rfl

/-! ### Concrete inputs used by witnesses and counterexamples -/

/-- A 1×1×1 frame with pixel value 1. -/
def cFrameA : Frame := ⟨[[[1]]]⟩

/-- A 1×1×1 frame with pixel value 2, distinct from `cFrameA`. -/
def cFrameB : Frame := ⟨[[[2]]]⟩

/-- A 2×2 detection rectangle at the origin. -/
def cRectA : Rect := ⟨0, 0, 2, 2⟩

/-- A smaller 1×1 rectangle, for area comparisons. -/
def cRectB : Rect := ⟨1, 1, 1, 1⟩

/-- A concrete vision environment: the face cascade reports `cRectB` and
`cRectA` exactly on (the grayscale of) `cFrameA`, the eye cascade reports
nothing, and the drawing primitives leave the pixel content unchanged. -/
def cEnvA : VisionEnv :=
  ⟨id, fun g => if g = cFrameA then [cRectB, cRectA] else [], fun _ => [],
   fun f _ => f, fun f _ => f, fun f _ => f⟩

/-- Like `cEnvA` but the eye cascade always reports two eye boxes. -/
def cEnvB : VisionEnv :=
  ⟨id, fun g => if g = cFrameA then [cRectB, cRectA] else [], fun _ => [cRectB, cRectB],
   fun f _ => f, fun f _ => f, fun f _ => f⟩

/-- A concrete system state with no collaborators, running. -/
def cSysA : DrownessDetectionSystem :=
  ⟨DrownessDetectionCamera.init 0, none, none, true, 0⟩

/-! ### Claim statements and theorems -/

/-- The property claimed of `FaceDetector.detect_face`: the boolean is true
exactly when the cascade reports at least one face; the detections value is
`None` exactly when it reports none; and any returned detections list holds
exactly one bounding box, a detected face of maximal area. -/
def DetectFaceLargest (env : VisionEnv) (frame : Frame) : Prop :=
  ((FaceDetector.detect_face env frame).2.2 = true
     ↔ env.faceCascade (env.grayOf frame) ≠ [])
  ∧ ((FaceDetector.detect_face env frame).2.1 = none
     ↔ env.faceCascade (env.grayOf frame) = [])
  ∧ (∀ b, (FaceDetector.detect_face env frame).2.1 = some b →
      ∃ r, b = [r] ∧ r ∈ env.faceCascade (env.grayOf frame)
        ∧ ∀ s ∈ env.faceCascade (env.grayOf frame), s.area ≤ r.area)

/-- C1: for every input frame, `FaceDetector.detect_face` returns `True` iff
the cascade reports at least one face, and in that case the detections list
holds exactly one bounding box, a rectangle of maximal area (width × height)
among the detected faces; with no face it returns `None` and `False`. -/
theorem detect_face_largest_spec (env : VisionEnv) (frame : Frame) :
    DetectFaceLargest env frame := by
  unfold DetectFaceLargest
  rcases hc : env.faceCascade (env.grayOf frame) with _ | ⟨a, rest⟩
  · rw [detect_face_of_no_faces env frame hc]
    simp
  · obtain ⟨d, tl, hsort, hdet, hflag⟩ := detect_face_of_faces env frame a rest hc
    rw [hdet, hflag]
    refine ⟨by simp, by simp, ?_⟩
    intro b hb
    have hb' : [d] = b := by injection hb
    obtain ⟨r, hhead, hmem, hmax⟩ := sortByAreaDesc_head_max (a :: rest) (by simp)
    have hsort' : sortByAreaDesc (a :: rest) = d :: tl := hsort
    rw [hsort'] at hhead
    simp only [List.head?_cons, Option.some.injEq] at hhead
    subst hhead
    exact ⟨d, hb'.symm, hmem, hmax⟩

/-- C1 witness: the theorem applied at a concrete environment and frame. -/
theorem detect_face_largest_witness : DetectFaceLargest cEnvA cFrameA :=
  detect_face_largest_spec cEnvA cFrameA

/-- The property claimed of `FaceDetector.get_face_landmarks` on a non-`None`
face region: landmarks are reported detected exactly when the eye cascade
finds at least two eye boxes, and exactly then the landmark dictionary holds
the eye boxes, their count, and the (drawn-on) face region; otherwise the
landmark data is `None`. -/
def LandmarksTwoEyes (env : VisionEnv) (frame fr : Frame) : Prop :=
  ((FaceDetector.get_face_landmarks env frame (some fr)).2.2 = true
    ↔ 2 ≤ (env.eyeCascade fr).length)
  ∧ (2 ≤ (env.eyeCascade fr).length →
      (FaceDetector.get_face_landmarks env frame (some fr)).2.1
        = some ⟨env.eyeCascade fr, (env.eyeCascade fr).length,
                (env.eyeCascade fr).foldl env.drawEyeRect fr⟩)
  ∧ ((env.eyeCascade fr).length < 2 →
      (FaceDetector.get_face_landmarks env frame (some fr)).2.1 = none)

/-- C2: for every frame and non-`None` face region,
`FaceDetector.get_face_landmarks` reports landmarks detected iff the eye
cascade finds at least two eye rectangles in the region, and exactly then it
returns the dictionary with the eye boxes, `eye_count = len(eyes)`, and the
referenced face region (onto which the eye boxes have been drawn); otherwise
the landmark data is `None`. -/
theorem get_face_landmarks_two_eyes_spec (env : VisionEnv) (frame fr : Frame) :
    LandmarksTwoEyes env frame fr := by
  unfold LandmarksTwoEyes
  simp only [FaceDetector.get_face_landmarks]
  by_cases hc : 2 ≤ (env.eyeCascade fr).length
  · rw [if_pos hc]
    exact ⟨by simp [hc], fun _ => rfl, fun hlt => absurd hlt (by omega)⟩
  · rw [if_neg hc]
    exact ⟨by simp [hc], fun hle => absurd hle hc, fun _ => rfl⟩

/-- C2 witness: the theorem applied at a concrete environment and regions. -/
theorem get_face_landmarks_two_eyes_witness : LandmarksTwoEyes cEnvB cFrameA cFrameA :=
  get_face_landmarks_two_eyes_spec cEnvB cFrameA cFrameA

/-- The property claimed on capture failure: `capture_and_detect` returns
`(None, False, None)` (leaving the module state unchanged, since nothing is
assigned before the early return), and one iteration of the detection loop
started on a failed read terminates the loop with the system state as it
stood, whatever inputs would have followed. -/
def CaptureFailureExit (env : VisionEnv) (sys : DrownessDetectionSystem)
    (key : Nat) (rest : List (Option Frame × Nat)) : Prop :=
  DrownessDetectionCamera.capture_and_detect env sys.camera_module none
      = ((none, false, none), sys.camera_module)
  ∧ (sys.is_running = true →
      DrownessDetectionSystem.detectionLoop env sys ((none, key) :: rest) = sys)

/-- C3: on capture failure `DrownessDetectionCamera.capture_and_detect`
returns `None` frame, `False` flag and `None` landmarks without raising, and
the detection loop of `DrownessDetectionSystem.start_detection` exits when it
receives a `None` frame: the remaining inputs are never consumed. -/
theorem capture_failure_exits_loop_spec (env : VisionEnv)
    (sys : DrownessDetectionSystem) (key : Nat)
    (rest : List (Option Frame × Nat)) : CaptureFailureExit env sys key rest := by
  refine ⟨rfl, ?_⟩
  intro h
  obtain ⟨cm, ed, al, ir, fc⟩ := sys
  simp only at h
  subst h
  rfl

/-- C3 witness: the theorem applied at a concrete running system, with the
`is_running` hypothesis discharged by `rfl`. -/
theorem capture_failure_exits_loop_witness :
    cSysA.is_running = true
    ∧ DrownessDetectionSystem.detectionLoop cEnvA cSysA [(none, 0)] = cSysA :=
  ⟨rfl, (capture_failure_exits_loop_spec cEnvA cSysA 0 []).2 rfl⟩

/-- C5: every exception of the collaborator calls `analyze_eyes` and
`trigger_alert` inside `DrownessDetectionSystem.process_frame` is caught (the
result is always `Except.ok`, for every choice of collaborators, including
ones that always raise), and the returned pair is exactly the camera
module's face-detected flag and landmark data whenever a frame is given
(`(False, None)` when the frame is `None`). -/
theorem process_frame_catches_spec (sys : DrownessDetectionSystem)
    (frame : Option Frame) :
    sys.process_frame frame
      = .ok (if frame.isSome
             then (sys.camera_module.is_face_detected,
                   sys.camera_module.get_face_landmarks)
             else (false, none)) := by
  cases frame <;> rfl

/-- C8: after a successful `capture_and_detect` call, the accessors
`is_face_detected` and `get_face_landmarks` return exactly the detected flag
and the landmarks value that the call returned (and, being pure reads, keep
doing so until the state is next replaced). -/
theorem capture_accessors_track_result_spec (env : VisionEnv)
    (cam : DrownessDetectionCamera) (f : Frame) :
    (DrownessDetectionCamera.capture_and_detect env cam (some f)).2.is_face_detected
      = (DrownessDetectionCamera.capture_and_detect env cam (some f)).1.2.1
    ∧ (DrownessDetectionCamera.capture_and_detect env cam (some f)).2.get_face_landmarks
      = (DrownessDetectionCamera.capture_and_detect env cam (some f)).1.2.2 := by
  rcases hc : env.faceCascade (env.grayOf f) with _ | ⟨a, rest⟩
  · rw [capture_some_of_no_faces env cam f hc]
    exact ⟨rfl, rfl⟩
  · obtain ⟨d, tl, hsort, heq⟩ := capture_some_of_faces env cam f a rest hc
    rw [heq]
    exact ⟨rfl, rfl⟩

/-- C10: `FaceDetector.get_face_landmarks` with a `None` face region — also
via the default argument — returns (a copy of) the frame, `None` landmark
data and `False`, without raising, and without running eye detection: the
result does not depend on the eye cascade or the eye drawing primitive. -/
theorem get_face_landmarks_none_spec (g : Frame → Frame)
    (fc ec ec' : Frame → List Rect) (dfr dfl der der' : Frame → Rect → Frame)
    (frame : Frame) :
    FaceDetector.get_face_landmarks ⟨g, fc, ec, dfr, dfl, der⟩ frame
      = (frame, none, false)
    ∧ FaceDetector.get_face_landmarks ⟨g, fc, ec, dfr, dfl, der⟩ frame none
      = FaceDetector.get_face_landmarks ⟨g, fc, ec', dfr, dfl, der'⟩ frame none :=
  ⟨rfl, rfl⟩

/-- State after `capture_and_detect` on `cFrameA` (a face is reported) from
the freshly initialized camera module. -/
def cCamStep1 : DrownessDetectionCamera :=
  (DrownessDetectionCamera.capture_and_detect cEnvA
    (DrownessDetectionCamera.init 0) (some cFrameA)).2

/-- State after a further `capture_and_detect` on `cFrameB` (no face is
reported). -/
def cCamStep2 : DrownessDetectionCamera :=
  (DrownessDetectionCamera.capture_and_detect cEnvA cCamStep1 (some cFrameB)).2

/-- C6 counterexample: a concrete run in which the second call detects no
face in `cFrameB`, yet the stored `last_face_region` still holds the face
crop extracted from the previous frame `cFrameA` — per-frame state is not
all recomputed from scratch, and a value derived from a previous frame is
carried over. -/
theorem capture_retains_region_counterexample :
    cEnvA.faceCascade (cEnvA.grayOf cFrameB) = []
    ∧ cCamStep2.face_detected = false
    ∧ cCamStep2.face_landmarks_data = none
    ∧ cCamStep2.last_face_region
        = FaceDetector.extract_face_roi cFrameA (some cRectA)
    ∧ cCamStep2.last_face_region = cCamStep1.last_face_region
    ∧ FaceDetector.extract_face_roi cFrameA (some cRectA) ≠ none
    ∧ cFrameA ≠ cFrameB := by decide

/-- The amended per-frame-state property: the detected flag and landmark
data returned and stored by `capture_and_detect` on a successful read are
recomputed from the current frame alone (independent of all prior state),
but the stored `last_face_region` is only overwritten on calls where a face
is detected — when the cascade reports no face it retains its previous
value. -/
def CapturePerFrameAmended (env : VisionEnv)
    (cam cam' : DrownessDetectionCamera) (f : Frame) : Prop :=
  ((DrownessDetectionCamera.capture_and_detect env cam (some f)).1.2
     = (DrownessDetectionCamera.capture_and_detect env cam' (some f)).1.2)
  ∧ ((DrownessDetectionCamera.capture_and_detect env cam (some f)).2.face_detected
     = (DrownessDetectionCamera.capture_and_detect env cam' (some f)).2.face_detected)
  ∧ ((DrownessDetectionCamera.capture_and_detect env cam (some f)).2.face_landmarks_data
     = (DrownessDetectionCamera.capture_and_detect env cam' (some f)).2.face_landmarks_data)
  ∧ (env.faceCascade (env.grayOf f) = [] →
      (DrownessDetectionCamera.capture_and_detect env cam (some f)).2.last_face_region
        = cam.last_face_region)

/-- C6 amended: the detection result and landmark dictionary are recomputed
from scratch on every successful call, but the stored face region is only
updated on calls where a face is detected and otherwise keeps the value from
an earlier frame. -/
theorem capture_per_frame_amended_spec (env : VisionEnv)
    (cam cam' : DrownessDetectionCamera) (f : Frame) :
    CapturePerFrameAmended env cam cam' f := by
  unfold CapturePerFrameAmended
  rcases hc : env.faceCascade (env.grayOf f) with _ | ⟨a, rest⟩
  · rw [capture_some_of_no_faces env cam f hc, capture_some_of_no_faces env cam' f hc]
    exact ⟨rfl, rfl, rfl, fun _ => rfl⟩
  · obtain ⟨d, tl, hsort, heq⟩ := capture_some_of_faces env cam f a rest hc
    obtain ⟨d', tl', hsort', heq'⟩ := capture_some_of_faces env cam' f a rest hc
    have hdd : d = d' := by
      have := hsort.symm.trans hsort'
      injection this with h1 _
    subst hdd
    rw [heq, heq']
    refine ⟨rfl, rfl, rfl, fun hnil => ?_⟩
    simp at hnil

/-- C6 amended witness: the theorem applied at a concrete environment, a
state carrying a stale face region, and a frame with no face. -/
theorem capture_per_frame_amended_witness :
    CapturePerFrameAmended cEnvA cCamStep1 (DrownessDetectionCamera.init 0) cFrameB :=
  capture_per_frame_amended_spec cEnvA cCamStep1 (DrownessDetectionCamera.init 0) cFrameB

/-- C7 counterexample: `CameraCapture.__init__` does construct a `Queue`:
the initialized state holds the queue object built by `Queue(maxsize=2)`. -/
theorem queue_constructed_counterexample :
    (CameraCapture.init 0 640 480).frame_queue = ⟨2, []⟩
    ∧ (CameraCapture.init 0 640 480).frame_queue.maxsize = 2 := ⟨rfl, rfl⟩

/-- C7 amended: the `Queue` constructed in `CameraCapture.__init__` is never
enqueued to or dequeued from — after any sequence of reads the queue is
still the empty two-slot queue, `get_frame` and `capture_and_detect` leave
it untouched — and frame delivery happens only through the direct camera
read returned by `get_frame`. -/
theorem queue_unused_amended_spec (i w h : Nat) (reads : List (Option Frame))
    (cam : CameraCapture) (read : Option Frame) (env : VisionEnv)
    (dcam : DrownessDetectionCamera) (dread : Option Frame) :
    ((CameraCapture.init i w h).runReads reads).frame_queue = ⟨2, []⟩
    ∧ (cam.get_frame read).2.frame_queue = cam.frame_queue
    ∧ (cam.get_frame read).1 = (read.isSome, read)
    ∧ (DrownessDetectionCamera.capture_and_detect env dcam dread).2.camera.frame_queue
        = dcam.camera.frame_queue := by
  refine ⟨?_, ?_, ?_, ?_⟩
  · rw [runReads_preserves_frame_queue]
    rfl
  · cases read <;> rfl
  · cases read <;> rfl
  · cases dread with
    | none => rfl
    | some f =>
      rcases hc : env.faceCascade (env.grayOf f) with _ | ⟨a, rest⟩
      · rw [capture_some_of_no_faces env dcam f hc]
      · obtain ⟨d, tl, hsort, heq⟩ := capture_some_of_faces env dcam f a rest hc
        rw [heq]

theorem foldl_write_preserves_read (bgrId j : Nat) (hne : bgrId ≠ j)
    (g : BufStore → Rect → Frame) (l : List Rect) :
    ∀ st : BufStore,
      (l.foldl (fun st r => st.write bgrId (g st r)) st).read j = st.read j := by
  induction l with
  | nil => intro st; rfl
  | cons r rs ih =>
    intro st
    rw [List.foldl_cons, ih]
    show (st.bufs.set bgrId (g st r))[j]? = st.bufs[j]?
    exact List.getElem?_set_ne hne

/-- The property claimed of `FaceDetector.detect_face` at buffer granularity:
the input frame's buffer is left unchanged (all drawing happens on the
`frame.copy()` buffer), and the annotated frame returned is a distinct
buffer from the input. -/
def DetectFacePreservesInput (env : VisionEnv) (s : BufStore)
    (frameId : Nat) : Prop :=
  ((FaceDetector.detect_face_buffers env s frameId).1).read frameId
      = s.read frameId
  ∧ (FaceDetector.detect_face_buffers env s frameId).2.1 ≠ frameId

/-- C9: `FaceDetector.detect_face` leaves the input frame unchanged — the
bounding-box and label drawing mutates only the freshly allocated copy — and
the annotated frame it returns is a distinct buffer from the input. -/
theorem detect_face_buffers_spec (env : VisionEnv) (s : BufStore)
    (frameId : Nat) (h : frameId < s.bufs.length) :
    DetectFacePreservesInput env s frameId := by
  have hne : s.bufs.length ≠ frameId := Nat.ne_of_gt h
  unfold DetectFacePreservesInput
  simp only [FaceDetector.detect_face_buffers, BufStore.alloc]
  constructor
  · split
    · rw [foldl_write_preserves_read s.bufs.length frameId hne]
      show (s.bufs ++ _)[frameId]? = s.bufs[frameId]?
      exact List.getElem?_append_left h
    · show (s.bufs ++ _)[frameId]? = s.bufs[frameId]?
      exact List.getElem?_append_left h
  · split
    · exact hne
    · exact hne

/-- C9 witness: the theorem applied at a one-buffer store, with the
index-validity hypothesis discharged by `decide`. -/
theorem detect_face_buffers_witness :
    0 < (BufStore.mk [cFrameA]).bufs.length
    ∧ DetectFacePreservesInput cEnvA ⟨[cFrameA]⟩ 0 :=
  ⟨by decide, detect_face_buffers_spec cEnvA ⟨[cFrameA]⟩ 0 (by decide)⟩

theorem slice_height_le (f : Frame) (a b c d : Int) :
    (f.slice a b c d).height ≤ f.height := by
  simp only [Frame.slice, Frame.height, List.length_map, List.length_take,
    List.length_drop]
  omega

theorem slice_row_length_le (f : Frame) (hrect : f.Rectangular)
    (a b c d : Int) : ∀ row ∈ (f.slice a b c d).data, row.length ≤ f.width := by
  intro row hrow
  simp only [Frame.slice, List.mem_map] at hrow
  obtain ⟨row₀, hmem, hrfl⟩ := hrow
  have hmem₀ : row₀ ∈ f.data :=
    List.mem_of_mem_drop (List.mem_of_mem_take hmem)
  have hlen : row₀.length = f.width := hrect row₀ hmem₀
  subst hrfl
  simp only [List.length_take, List.length_drop]
  omega

theorem slice_getPix (f : Frame) (a b c d : Int) (i j : Nat) (pix : List Nat)
    (hp : (f.slice a b c d).getPix i j = some pix) :
    f.getPix (a.toNat + i) (c.toNat + j) = some pix := by
  unfold Frame.getPix at hp ⊢
  unfold Frame.slice at hp
  simp only [List.getElem?_map] at hp
  rw [List.getElem?_take] at hp
  split at hp
  · rw [List.getElem?_drop] at hp
    cases hrow : f.data[a.toNat + i]? with
    | none => rw [hrow] at hp; simp at hp
    | some row₀ =>
      rw [hrow] at hp
      simp only [Option.map_some', Option.some_bind] at hp
      rw [List.getElem?_take] at hp
      split at hp
      · rw [List.getElem?_drop] at hp
        simpa using hp
      · simp at hp
  · simp at hp

/-- The property claimed of `FaceDetector.extract_face_roi`: the crop window
obtained from the detection `(x, y, w, h)` with the `margin = w / 10` has
lower bounds clamped to at least zero and upper bounds clamped to at most
the frame's width and height; the extraction succeeds and yields a frame no
taller or wider than the input whose every pixel is the input frame's pixel
at the clamped offset — a sub-rectangle, never an out-of-range access. -/
def ExtractRoiWithin (frame : Frame) (x y w h : Nat) : Prop :=
  0 ≤ max 0 ((x : Int) - (w : Int) / 10)
  ∧ 0 ≤ max 0 ((y : Int) - (w : Int) / 10)
  ∧ min (frame.width : Int) ((x : Int) + (w : Int) + (w : Int) / 10)
      ≤ (frame.width : Int)
  ∧ min (frame.height : Int) ((y : Int) + (h : Int) + (w : Int) / 10)
      ≤ (frame.height : Int)
  ∧ ∃ roi, FaceDetector.extract_face_roi frame (some ⟨x, y, w, h⟩) = some roi
      ∧ roi.height ≤ frame.height
      ∧ (∀ row ∈ roi.data, row.length ≤ frame.width)
      ∧ ∀ i j pix, roi.getPix i j = some pix →
          frame.getPix ((max 0 ((y : Int) - (w : Int) / 10)).toNat + i)
            ((max 0 ((x : Int) - (w : Int) / 10)).toNat + j) = some pix

/-- C4: for every frame and detection tuple of non-negative integers,
`FaceDetector.extract_face_roi` crops with a `w / 10` margin clamped to
`[0, width] × [0, height]`, so the slice stays inside the frame and the
result is a sub-rectangle of the frame. -/
theorem extract_face_roi_within_spec (frame : Frame) (x y w h : Nat)
    (hrect : frame.Rectangular) : ExtractRoiWithin frame x y w h := by
  refine ⟨le_max_left 0 _, le_max_left 0 _, min_le_left _ _, min_le_left _ _,
    frame.slice (max 0 ((y : Int) - (w : Int) / 10))
      (min (frame.height : Int) ((y : Int) + (h : Int) + (w : Int) / 10))
      (max 0 ((x : Int) - (w : Int) / 10))
      (min (frame.width : Int) ((x : Int) + (w : Int) + (w : Int) / 10)),
    rfl, slice_height_le frame _ _ _ _, slice_row_length_le frame hrect _ _ _ _,
    fun i j pix hp => slice_getPix frame _ _ _ _ i j pix hp⟩

/-- A rectangular 2×2×1 frame for the C4 witness. -/
def cFrameC : Frame := ⟨[[[3], [4]], [[5], [6]]]⟩

/-- C4 witness: the theorem applied at a concrete frame and detection, with
the rectangularity hypothesis discharged by `decide`. -/
theorem extract_face_roi_within_witness :
    cFrameC.Rectangular ∧ ExtractRoiWithin cFrameC 0 0 1 1 :=
  ⟨by decide, extract_face_roi_within_spec cFrameC 0 0 1 1 (by decide)⟩
